import Mathlib

set_option maxRecDepth 100000

/-!
Verification development for the neo4j-python-driver core: a shallow
embedding of `neo4j/exceptions.py`, `neo4j/io/_common.py`,
`neo4j/_async/io/_bolt4.py` and `neo4j/_sync/io/_bolt5.py`, together with
theorems settling the frozen claims about the specification.

The async (`AsyncBolt4x0` ...) and sync (`Bolt5x0`) handlers share the same
protocol logic and differ only in how socket I/O yields; the embedding
models the shared logic once and keeps per-version differences explicit.
-/

/-! ## Exception classes (`neo4j/exceptions.py`)

Python's exception classes relevant to the claims, with their single
inheritance hierarchy exactly as declared in `exceptions.py`.
-/

inductive ErrClass
  | neo4jError
  | clientError
  | databaseError
  | transientError
  | databaseUnavailable
  | constraintError
  | cypherSyntaxError
  | cypherTypeError
  | notALeader
  | forbidden
  | forbiddenOnReadOnlyDatabase
  | authError
  | tokenExpired
  | driverError
  | sessionExpired
  | transactionError
  | transactionNestingError
  | resultError
  | resultConsumedError
  | resultNotSingleError
  | serviceUnavailable
  | routingServiceUnavailable
  | writeServiceUnavailable
  | readServiceUnavailable
  | incompleteCommit
  | configurationError
  | authConfigurationError
  | certificateConfigurationError
  deriving DecidableEq, Repr, Fintype

/-- The declared base class of each class (`None` for the two roots
`Neo4jError` and `DriverError`, which extend Python's `Exception`). -/
def ErrClass.parent : ErrClass → Option ErrClass
  | .neo4jError => none
  | .clientError => some .neo4jError
  | .databaseError => some .neo4jError
  | .transientError => some .neo4jError
  | .databaseUnavailable => some .transientError
  | .constraintError => some .clientError
  | .cypherSyntaxError => some .clientError
  | .cypherTypeError => some .clientError
  | .notALeader => some .transientError
  | .forbidden => some .clientError
  | .forbiddenOnReadOnlyDatabase => some .transientError
  | .authError => some .clientError
  | .tokenExpired => some .authError
  | .driverError => none
  | .sessionExpired => some .driverError
  | .transactionError => some .driverError
  | .transactionNestingError => some .driverError
  | .resultError => some .driverError
  | .resultConsumedError => some .resultError
  | .resultNotSingleError => some .resultError
  | .serviceUnavailable => some .driverError
  | .routingServiceUnavailable => some .serviceUnavailable
  | .writeServiceUnavailable => some .serviceUnavailable
  | .readServiceUnavailable => some .serviceUnavailable
  | .incompleteCommit => some .serviceUnavailable
  | .configurationError => some .driverError
  | .authConfigurationError => some .configurationError
  | .certificateConfigurationError => some .configurationError

/-- The method-resolution chain of a class: itself followed by its
ancestors (fuel-bounded; the hierarchy has depth at most 4). -/
def ErrClass.mroAux : Nat → ErrClass → List ErrClass
  | 0, c => [c]
  | n + 1, c =>
    c :: (match c.parent with
          | some p => ErrClass.mroAux n p
          | none => [])

def ErrClass.mro (c : ErrClass) : List ErrClass :=
  ErrClass.mroAux 6 c

/-- `issubclass(a, b)` (reflexive). -/
def ErrClass.subclassOf (a b : ErrClass) : Bool :=
  b ∈ a.mro

/-! ## `Neo4jError.hydrate` and friends -/

def CLASSIFICATION_CLIENT : String := "ClientError"
def CLASSIFICATION_TRANSIENT : String := "TransientError"
def CLASSIFICATION_DATABASE : String := "DatabaseError"

/-- Python's `str.split(".")`: splits on every dot, keeping empty pieces. -/
def splitDotsAux : List Char → List Char → List String
  | [], acc => [String.mk acc.reverse]
  | ch :: cs, acc =>
    if ch = '.' then String.mk acc.reverse :: splitDotsAux cs []
    else splitDotsAux cs (ch :: acc)

def splitDots (s : String) : List String :=
  splitDotsAux s.data []

/-- Python's `x or default` for an optional string (`None` and `""` are
falsy). -/
def pyOr (s : Option String) (d : String) : String :=
  match s with
  | none => d
  | some v => if v = "" then d else v

/-- The `client_errors` dict of `exceptions.py`: code → specific class. -/
def client_errors_list : List (String × ErrClass) :=
  [ ("Neo.ClientError.Schema.ConstraintValidationFailed", .constraintError)
  , ("Neo.ClientError.Schema.ConstraintViolation", .constraintError)
  , ("Neo.ClientError.Statement.ConstraintVerificationFailed", .constraintError)
  , ("Neo.ClientError.Statement.ConstraintViolation", .constraintError)
  , ("Neo.ClientError.Statement.InvalidSyntax", .cypherSyntaxError)
  , ("Neo.ClientError.Statement.SyntaxError", .cypherSyntaxError)
  , ("Neo.ClientError.Procedure.TypeError", .cypherTypeError)
  , ("Neo.ClientError.Statement.InvalidType", .cypherTypeError)
  , ("Neo.ClientError.Statement.TypeError", .cypherTypeError)
  , ("Neo.ClientError.General.ForbiddenOnReadOnlyDatabase", .forbiddenOnReadOnlyDatabase)
  , ("Neo.ClientError.General.ReadOnly", .forbidden)
  , ("Neo.ClientError.Schema.ForbiddenOnConstraintIndex", .forbidden)
  , ("Neo.ClientError.Schema.IndexBelongsToConstraint", .forbidden)
  , ("Neo.ClientError.Security.Forbidden", .forbidden)
  , ("Neo.ClientError.Transaction.ForbiddenDueToTransactionType", .forbidden)
  , ("Neo.ClientError.Security.AuthorizationFailed", .authError)
  , ("Neo.ClientError.Security.Unauthorized", .authError)
  , ("Neo.ClientError.Security.TokenExpired", .tokenExpired)
  , ("Neo.ClientError.Cluster.NotALeader", .notALeader) ]

def client_errors (code : String) : Option ErrClass :=
  client_errors_list.lookup code

/-- The `transient_errors` dict of `exceptions.py`. -/
def transient_errors_list : List (String × ErrClass) :=
  [ ("Neo.TransientError.General.DatabaseUnavailable", .databaseUnavailable) ]

def transient_errors (code : String) : Option ErrClass :=
  transient_errors_list.lookup code

/-- `Neo4jError._extract_error_class`. -/
def Neo4jError.extract_error_class (classification code : String) : ErrClass :=
  if classification = CLASSIFICATION_CLIENT then
    (client_errors code).getD .clientError
  else if classification = CLASSIFICATION_TRANSIENT then
    (transient_errors code).getD .transientError
  else if classification = CLASSIFICATION_DATABASE then
    .databaseError
  else
    .neo4jError

/-- A hydrated server error: the instance built by `Neo4jError.hydrate`,
with its Python class and the attributes set on it. -/
structure HydratedError where
  cls : ErrClass
  message : String
  code : String
  classification : String
  category : String
  title : String
  deriving DecidableEq, Repr

/-- `Neo4jError.hydrate(message, code, **metadata)`: defaults the message
and code, splits the code into its four dot-separated parts (malformed
codes fall back to `DatabaseError / General / UnknownError`), applies the
`AuthorizationExpired` reclassification and picks the error class. -/
def Neo4jError.hydrate (message code : Option String) : HydratedError :=
  let message := pyOr message "An unknown error occurred"
  let code := pyOr code "Neo.DatabaseError.General.UnknownError"
  let parts : String × String × String :=
    match splitDots code with
    | [_, classification0, category, title] =>
      (if code = "Neo.ClientError.Security.AuthorizationExpired" then
         CLASSIFICATION_TRANSIENT
       else classification0, category, title)
    | _ => (CLASSIFICATION_DATABASE, "General", "UnknownError")
  { cls := Neo4jError.extract_error_class parts.1 code
    message := message, code := code
    classification := parts.1, category := parts.2.1, title := parts.2.2 }

/-- `Neo4jError.invalidates_all_connections`. -/
def Neo4jError.invalidates_all_connections (e : HydratedError) : Bool :=
  e.code = "Neo.ClientError.Security.AuthorizationExpired"

/-- The classes that define an `is_retriable` method of their own in the
source (all others inherit it): `Neo4jError` returns `False`,
`TransientError` excludes the two misclassified codes, `DriverError`
returns `False`, `SessionExpired` and `ServiceUnavailable` return `True`,
`IncompleteCommit` returns `False`. -/
def isRetriableOwn : ErrClass → Option (String → Bool)
  | .neo4jError => some fun _ => false
  | .transientError => some fun code =>
      !(code == "Neo.TransientError.Transaction.Terminated") &&
      !(code == "Neo.TransientError.Transaction.LockClientStopped")
  | .driverError => some fun _ => false
  | .sessionExpired => some fun _ => true
  | .serviceUnavailable => some fun _ => true
  | .incompleteCommit => some fun _ => false
  | _ => none

/-- Python method dispatch for `is_retriable`: the first class in the
method-resolution chain that defines it wins. -/
def is_retriable_dispatch (c : ErrClass) (code : String) : Bool :=
  match c.mro.findSome? isRetriableOwn with
  | some f => f code
  | none => false

/-- `e.is_retriable()` on a hydrated server error. -/
def Neo4jError.is_retriable (e : HydratedError) : Bool :=
  is_retriable_dispatch e.cls e.code

/-! ## Raised exception values

A value describing the Python exception object that a piece of code
raises: either a hydrated `Neo4jError` instance, an instance of one of the
driver/connector classes carrying only a message, or one of the Python
builtins raised by the core (`TypeError`, `ValueError`), plus
`BoltProtocolError` and `IndexError` for the protocol machinery. -/
inductive Raised
  | neo (e : HydratedError)
  | driver (cls : ErrClass) (msg : String)
  | typeError (msg : String)
  | valueError (msg : String)
  | overflowError (msg : String)
  | boltProtocolError (info : String)
  | indexError
  deriving DecidableEq, Repr

/-- `isinstance(e, cls)` for a raised error. -/
def Raised.isinstance : Raised → ErrClass → Bool
  | .neo h, cls => h.cls.subclassOf cls
  | .driver c _, cls => c.subclassOf cls
  | _, _ => false

/-- `e.invalidates_all_connections()` on a raised error: hydrated errors
carry their code; any other instance keeps the `Neo4jError.code = None`
class attribute, so the comparison is false. -/
def Raised.invalidatesAll : Raised → Bool
  | .neo h => Neo4jError.invalidates_all_connections h
  | _ => false

/-! ## `Response` and `InitResponse` (`neo4j/io/_common.py`) -/

/-- Metadata of a summary reply, restricted to the keys the embedded code
reads (`code` and `message` for FAILURE hydration, `has_more` for the
state manager). -/
structure ReplyMeta where
  code : Option String := none
  message : Option String := none
  has_more : Bool := false
  deriving DecidableEq, Repr

/-- Observable outcome of running an `on_failure` callback of a response
object: whether an implicit RESET was attempted on the connection, which
user-supplied handlers were invoked (in order), and the exception the
callback raises. -/
structure OnFailureOutcome where
  resetAttempted : Bool
  invoked : List String
  raised : Raised
  deriving DecidableEq, Repr

/-- `Response.on_failure`: attempts `connection.reset()` (ignoring
`SessionExpired` / `ServiceUnavailable`), invokes the user `on_failure`
and `on_summary` handlers when supplied, then raises
`Neo4jError.hydrate(**metadata)`. -/
def Response.on_failure (hasOnFailure hasOnSummary : Bool) (md : ReplyMeta) : OnFailureOutcome :=
  { resetAttempted := true
  , invoked := (if hasOnFailure then ["on_failure"] else [])
      ++ (if hasOnSummary then ["on_summary"] else [])
  , raised := .neo (Neo4jError.hydrate md.message md.code) }

/-- `InitResponse.on_failure` (the HELLO response): raises the hydrated
typed error only for `Neo.ClientError.Security.Unauthorized`, otherwise a
`ServiceUnavailable`; it overrides `Response.on_failure` entirely, so no
reset is attempted and no user handler runs. -/
def InitResponse.on_failure (md : ReplyMeta) : OnFailureOutcome :=
  if md.code = some "Neo.ClientError.Security.Unauthorized" then
    { resetAttempted := false, invoked := []
    , raised := .neo (Neo4jError.hydrate md.message md.code) }
  else
    { resetAttempted := false, invoked := []
    , raised := .driver .serviceUnavailable
        (md.message.getD "Connection initialisation failed") }

/-! ## `ConnectionErrorHandler` (`neo4j/io/_common.py`) -/

/-- An attribute looked up on the wrapped connection: a plain (non-callable)
value or a method. A method may return a value or raise. -/
inductive PyAttr (V A R : Type)
  | nonCallable (v : V)
  | callable (f : A → Except Raised R)

/-- The tuple of classes caught by the wrapper:
`(Neo4jError, ServiceUnavailable, SessionExpired)`. -/
def caughtByHandler (e : Raised) : Bool :=
  e.isinstance .neo4jError || e.isinstance .serviceUnavailable || e.isinstance .sessionExpired

/-- Observable outcome of calling the wrapped method: whether `on_error`
was invoked, and the call's result — `Except.ok none` is Python's implicit
`None` return (the inner wrapper never returns the underlying value). -/
structure WrappedCallResult (R : Type) where
  onErrorCalled : Bool
  result : Except Raised (Option R)

/-- The `inner` closure built by `ConnectionErrorHandler.__getattr__`:
calls the underlying method, and on `Neo4jError`, `ServiceUnavailable` or
`SessionExpired` invokes `on_error` and re-raises; it never returns the
method's value. -/
def wrappedCall {A R : Type} (f : A → Except Raised R) (a : A) : WrappedCallResult R :=
  match f a with
  | .ok _ => { onErrorCalled := false, result := .ok none }
  | .error e =>
    if caughtByHandler e then { onErrorCalled := true, result := .error e }
    else { onErrorCalled := false, result := .error e }

/-- Result of `ConnectionErrorHandler.__getattr__`: a non-callable
attribute passes through unchanged; a callable is wrapped. -/
inductive GetattrResult (V A R : Type)
  | plain (v : V)
  | wrapped (g : A → WrappedCallResult R)

def ConnectionErrorHandler.getattr {V A R : Type} : PyAttr V A R → GetattrResult V A R
  | .nonCallable v => .plain v
  | .callable f => .wrapped (wrappedCall f)

/-! ## `TransactionNestingError.__init__` (`neo4j/exceptions.py`) -/

/-- Python's `super(cls, obj).__init__` bound-super check: raises
`TypeError` unless `type(obj)` is a subclass of `cls`. -/
def superInitCheck (cls selfClass : ErrClass) : Except Raised Unit :=
  if selfClass.subclassOf cls then .ok ()
  else .error (.typeError "super(type, obj): obj must be an instance or subtype of type")

/-- A constructed `TransactionNestingError` instance (field set after the
`super().__init__` call). -/
structure TransactionNestingErrorInst where
  transaction : String
  deriving DecidableEq, Repr

/-- `TransactionNestingError.__init__(self, transaction, *args, **kwargs)`:
its first statement is `super(TransactionError, self).__init__(...)`,
where `self` is a `TransactionNestingError` (a direct subclass of
`DriverError`, not of `TransactionError`). -/
def TransactionNestingError.init (transaction : String) (_args : List String) :
    Except Raised TransactionNestingErrorInst :=
  match superInitCheck .transactionError .transactionNestingError with
  | .error e => .error e
  | .ok _ => .ok { transaction := transaction }

/-! ## Server states and the per-connection correlation engine
(`AsyncBolt4x0._process_message` / `Bolt5x0._process_message`; the two
bodies are identical up to async syntax) -/

inductive ServerState
  | connected
  | ready
  | streaming
  | txReady
  | txStreaming
  | failed
  | defunct
  deriving DecidableEq, Repr

/-- Modelled from the spec: `ServerStateManager.transition` lives in
`neo4j/_async/io/_bolt3.py` / `neo4j/_sync/io/_bolt3.py`, which are not
among the provided sources; this is the transition table of spec §4.4,
keyed by current state, request name and the SUCCESS metadata's
`has_more` (a successful RESET always yields READY; unexpected
combinations are logged and leave the state unchanged). -/
def ServerStateManager.transition (s : ServerState) (message : String) (hasMore : Bool) :
    ServerState :=
  if message = "reset" then .ready
  else
    match s, message with
    | .connected, "hello" => .ready
    | .ready, "run" => .streaming
    | .ready, "begin" => .txReady
    | .streaming, "pull" => if hasMore then .streaming else .ready
    | .streaming, "discard" => if hasMore then .streaming else .ready
    | .txReady, "run" => .txStreaming
    | .txStreaming, "pull" => if hasMore then .txStreaming else .txReady
    | .txStreaming, "discard" => if hasMore then .txStreaming else .txReady
    | .txReady, "commit" => .ready
    | .txStreaming, "commit" => .ready
    | .txReady, "rollback" => .ready
    | .txStreaming, "rollback" => .ready
    | s0, _ => s0

/-- What a response object's `on_failure` path raises: a plain `Response`
raises the error hydrated from the FAILURE metadata; an `InitResponse`
follows `InitResponse.on_failure`; `raises e` models a response whose
user `on_failure` handler itself raises `e` (e.g. the RESET response's
`fail` handler raising `BoltProtocolError`). -/
inductive FailBehavior
  | plainResponse
  | initResponse
  | raises (e : Raised)
  deriving DecidableEq, Repr

/-- A queued response object: the name of the request it corresponds to,
its failure behavior, and its `complete` flag. -/
structure Resp where
  message : String
  failBehavior : FailBehavior := .plainResponse
  complete : Bool := false
  deriving DecidableEq, Repr

def Resp.onFailureRaised (r : Resp) (md : ReplyMeta) : Raised :=
  match r.failBehavior with
  | .plainResponse => .neo (Neo4jError.hydrate md.message md.code)
  | .initResponse => (InitResponse.on_failure md).raised
  | .raises e => e

/-- The connection state `_process_message` touches: the response deque
(head at the front, `_append` pushes at the tail), the server-state
manager's state, and whether the connection still holds its pool
back-reference (`self.pool`). -/
structure Conn where
  responses : List Resp
  state : ServerState
  hasPool : Bool
  deriving DecidableEq, Repr

/-- One RECORD's values (opaque to the correlation engine). -/
abbrev Rec := List String

/-- Observable events of one `_process_message` step, in order. -/
inductive Event
  | onRecords (r : Resp) (details : List Rec)
  | onSuccess (r : Resp) (md : ReplyMeta)
  | onIgnored (r : Resp) (md : ReplyMeta)
  | onFailureCall (r : Resp) (md : ReplyMeta)
  | setState (s : ServerState)
  | poolDeactivate
  | poolOnWriteFailure
  | poolMarkAllStale
  deriving DecidableEq, Repr

structure StepResult where
  conn : Conn
  events : List Event
  popped : List Resp
  raised : Option Raised
  deriving DecidableEq, Repr

/-- The `try/except` chain around `response.on_failure` in
`_process_message`: which pool callback fires for the raised error (the
clauses are tried in order; every clause re-raises). -/
def poolDispatch (hasPool : Bool) (e : Raised) : List Event :=
  if e.isinstance .serviceUnavailable || e.isinstance .databaseUnavailable then
    if hasPool then [.poolDeactivate] else []
  else if e.isinstance .notALeader || e.isinstance .forbiddenOnReadOnlyDatabase then
    if hasPool then [.poolOnWriteFailure] else []
  else if e.isinstance .neo4jError then
    if hasPool && e.invalidatesAll then [.poolMarkAllStale] else []
  else []

def SUCCESS_SIG : Nat := 0x70
def RECORD_SIG : Nat := 0x71
def IGNORED_SIG : Nat := 0x7E
def FAILURE_SIG : Nat := 0x7F

def processSummary (c : Conn) (ev0 : List Event) :
    Option (Nat × ReplyMeta) → StepResult
  | none => { conn := c, events := ev0, popped := [], raised := none }
  | some (sig, md) =>
    match c.responses with
    | [] => { conn := c, events := ev0, popped := [], raised := some .indexError }
    | r :: rest =>
      let r' : Resp := { r with complete := true }
      if sig = SUCCESS_SIG then
        let s' := ServerStateManager.transition c.state r.message md.has_more
        { conn := { c with responses := rest, state := s' }
        , events := ev0 ++ [.onSuccess r' md]
        , popped := [r'], raised := none }
      else if sig = IGNORED_SIG then
        { conn := { c with responses := rest }
        , events := ev0 ++ [.onIgnored r' md]
        , popped := [r'], raised := none }
      else if sig = FAILURE_SIG then
        let e := r.onFailureRaised md
        { conn := { c with responses := rest, state := .failed }
        , events := ev0 ++ [.setState .failed, .onFailureCall r' md] ++ poolDispatch c.hasPool e
        , popped := [r'], raised := some e }
      else
        { conn := { c with responses := rest }
        , events := ev0
        , popped := [r'], raised := some (.boltProtocolError "Unexpected response message") }

/-- `_process_message(details, summary_signature, summary_metadata)`: a
nonempty `details` list is delivered to the head response's `on_records`
without popping (an empty deque would raise `IndexError`); a summary
signature pops the head via `popleft`, marks it `complete`, and
dispatches on the signature; the FAILURE branch sets the state to
`FAILED` before invoking `on_failure` and signalling the pool; an unknown
signature raises `BoltProtocolError` (after the pop). -/
def processMessage (c : Conn) (details : List Rec)
    (summary : Option (Nat × ReplyMeta)) : StepResult :=
  match details, c.responses with
  | [], _ => processSummary c [] summary
  | _ :: _, [] => { conn := c, events := [], popped := [], raised := some .indexError }
  | d :: ds, r :: _ => processSummary c [.onRecords r (d :: ds)] summary

/-- The `is_reset` property (the Bolt 4.x and 5.0 bodies are identical):
`True` when the most recently enqueued response is for RESET, else
whether the server-state manager's state is `READY`. -/
def Bolt.is_reset (c : Conn) : Bool :=
  if c.responses.getLast?.map Resp.message = some "reset" then true
  else c.state = ServerState.ready

/-- A run of the correlation engine: `push` models `_append` enqueueing a
response at the tail of the deque, `deliver` models `_process_message` on
one inbox item. The run stops when a step raises. Returns the final
connection and all popped responses in order. -/
inductive Op
  | push (r : Resp)
  | deliver (details : List Rec) (summary : Option (Nat × ReplyMeta))
  deriving DecidableEq, Repr

def runOps : Conn → List Op → Conn × List Resp
  | c, [] => (c, [])
  | c, .push r :: ops => runOps { c with responses := c.responses ++ [r] } ops
  | c, .deliver d s :: ops =>
    let st := processMessage c d s
    match st.raised with
    | some _ => (st.conn, st.popped)
    | none =>
      let p := runOps st.conn ops
      (p.1, st.popped ++ p.2)

/-- The responses enqueued over a run, in order. -/
def enqueuedOf : List Op → List Resp
  | [] => []
  | .push r :: ops => r :: enqueuedOf ops
  | .deliver _ _ :: ops => enqueuedOf ops

def markComplete (r : Resp) : Resp := { r with complete := true }

/-! ## Request builders: `run`, `begin`, `route`
(`AsyncBolt4x0` / `AsyncBolt4x3` / `AsyncBolt4x4` in `_bolt4.py`,
`Bolt5x0` in `_bolt5.py`) -/

/-- `READ_ACCESS` from `neo4j/api.py` (not among the provided sources);
only the membership test `mode in (READ_ACCESS, "r")` matters here. -/
def READ_ACCESS : String := "READ_ACCESS"

/-- The `bookmarks` argument: an iterable (already materialized as a
list), or a truthy non-iterable object on which `list(...)` raises
`TypeError`. -/
inductive BookmarksInput
  | iter (xs : List String)
  | notIterable
  deriving DecidableEq, Repr

/-- The `metadata` argument: coercible to a dict, or a truthy object on
which `dict(...)` raises `TypeError`. -/
inductive MetadataInput
  | dict (kvs : List (String × String))
  | notCoercible
  deriving DecidableEq, Repr

/-- The `timeout` argument: a numeric value, given as the exact rational
value `n / d` of the finite binary64 double `float(timeout)` (every
finite Python float is such a rational, with `d` a power of two and `d`
positive), or an object on which `float(...)` raises `TypeError`. -/
inductive TimeoutInput
  | num (n : Int) (d : Nat)
  | nonNumeric
  deriving DecidableEq, Repr

/-- The keyword arguments of `run`/`begin` that feed the `extra` map. -/
structure TxArgs where
  mode : Option String := none
  db : Option String := none
  imp_user : Option String := none
  bookmarks : Option BookmarksInput := none
  metadata : Option MetadataInput := none
  timeout : Option TimeoutInput := none
  deriving DecidableEq, Repr

/-- A value stored in the `extra` map. -/
inductive ExtraVal
  | str (s : String)
  | int (i : Int)
  | strList (xs : List String)
  | dict (kvs : List (String × String))
  deriving DecidableEq, Repr

/-- Python truthiness of the optional inputs (`if db:` etc.). -/
def truthyStr : Option String → Bool
  | none => false
  | some s => !(s == "")

def truthyBookmarks : Option BookmarksInput → Bool
  | none => false
  | some (.iter xs) => !xs.isEmpty
  | some .notIterable => true

def truthyMetadata : Option MetadataInput → Bool
  | none => false
  | some (.dict kvs) => !kvs.isEmpty
  | some .notCoercible => true

/-- Fuel-driven floor of log₂ (structural recursion, so the kernel can
evaluate it on literals). Fuel 4096 suffices for every magnitude below
`2^4096`, far beyond anything a finite binary64 computation produces
(all intermediate magnitudes here stay below `2^1100`). -/
def natLog2Aux : Nat → Nat → Nat
  | 0, _ => 0
  | fuel + 1, n => if n ≤ 1 then 0 else natLog2Aux fuel (n / 2) + 1

def natLog2 (n : Nat) : Nat := natLog2Aux 4096 n

/-- Round the non-negative rational `num / den` to the nearest integer,
ties to even. -/
def roundNearestEven (num den : Nat) : Nat :=
  let q := num / den
  let r := num % den
  if 2 * r > den then q + 1
  else if 2 * r < den then q
  else if q % 2 = 0 then q else q + 1

/-- IEEE-754 binary64 rounding (to nearest, ties to even) of the positive
rational `num / den`, as a pair `(m, e)` of value `m · 2^e`: the binade
exponent `E` with `2^E ≤ num/den < 2^(E+1)` fixes the quantum `2^(E-52)`
(clamped to `2^-1074` below the normal range), and the quantum-scaled
value is rounded to the nearest integer, ties to even. -/
def roundPosToDouble (num den : Nat) : Nat × Int :=
  let b := natLog2 num
  let c := natLog2 den
  let E : Int :=
    if num * 2 ^ c ≥ den * 2 ^ b then (b : Int) - (c : Int)
    else (b : Int) - (c : Int) - 1
  let e : Int := if E < -1022 then -1074 else E - 52
  let m : Nat :=
    if e ≤ 0 then roundNearestEven (num * 2 ^ (-e).toNat) den
    else roundNearestEven num (den * 2 ^ e.toNat)
  (m, e)

/-- The binary64 double nearest the rational `n / d` (ties to even), as
an exact rational `some (pn, pd)`; `none` when the magnitude overflows to
infinity (at or beyond `2^1024`). -/
def roundRatToDouble (n : Int) (d : Nat) : Option (Int × Nat) :=
  if n = 0 then some (0, 1)
  else
    let md := roundPosToDouble n.natAbs d
    let m := md.1
    let e := md.2
    let sign : Int := if n < 0 then -1 else 1
    if 0 ≤ e then
      if m * 2 ^ e.toNat ≥ 2 ^ 1024 then none
      else some (sign * (m : Int) * (2 ^ e.toNat : Nat), 1)
    else some (sign * (m : Int), 2 ^ (-e).toNat)

/-- `int(1000 * float(timeout))` for a finite double input of exact value
`n / d`: `1000 * t` is a binary64 multiplication, so the exact product
`1000·n/d` is first rounded to the nearest double (ties to even), then
`int(·)` truncates that double toward zero. `none` models overflow of the
product to infinity, on which `int(·)` raises `OverflowError`. -/
def pyTimeoutMs (n : Int) (d : Nat) : Option Int :=
  match roundRatToDouble (1000 * n) d with
  | none => none
  | some (pn, pd) => some (Int.tdiv pn (pd : Int))

/-- `if mode in (READ_ACCESS, "r"): extra["mode"] = "r"`. -/
def modeField (mode : Option String) : List (String × ExtraVal) :=
  if mode = some READ_ACCESS ∨ mode = some "r" then [("mode", .str "r")] else []

/-- `if db: extra["db"] = db`. -/
def dbField (db : Option String) : List (String × ExtraVal) :=
  if truthyStr db then [("db", .str (db.getD ""))] else []

/-- `if imp_user: extra["imp_user"] = imp_user` (4.4 and 5.0 only). -/
def impUserField (imp_user : Option String) : List (String × ExtraVal) :=
  if truthyStr imp_user then [("imp_user", .str (imp_user.getD ""))] else []

/-- `if bookmarks: try: extra["bookmarks"] = list(bookmarks) except TypeError: raise ...`. -/
def bookmarksField (errMsg : String) (b : Option BookmarksInput) :
    Except Raised (List (String × ExtraVal)) :=
  if truthyBookmarks b then
    match b with
    | some (.iter xs) => .ok [("bookmarks", .strList xs)]
    | _ => .error (.typeError errMsg)
  else .ok []

/-- `if metadata: try: extra["tx_metadata"] = dict(metadata) except TypeError: raise ...`. -/
def metadataField (errMsg : String) (m : Option MetadataInput) :
    Except Raised (List (String × ExtraVal)) :=
  if truthyMetadata m then
    match m with
    | some (.dict kvs) => .ok [("tx_metadata", .dict kvs)]
    | _ => .error (.typeError errMsg)
  else .ok []

/-- `if timeout is not None: extra["tx_timeout"] = int(1000 * float(timeout))`
(`TypeError` for non-numbers, `OverflowError` — uncaught — when the
product is infinite) followed by
`if extra["tx_timeout"] < 0: raise ValueError(...)`. -/
def timeoutField (typeMsg valueMsg : String) :
    Option TimeoutInput → Except Raised (List (String × ExtraVal))
  | none => .ok []
  | some .nonNumeric => .error (.typeError typeMsg)
  | some (.num n d) =>
    match pyTimeoutMs n d with
    | none => .error (.overflowError "cannot convert float infinity to integer")
    | some t =>
      if t < 0 then .error (.valueError valueMsg)
      else .ok [("tx_timeout", .int t)]

/-- `extra`-map construction of `AsyncBolt4x0.run` (`begin` executes the
same statements): rejects a non-None `imp_user` first with
`ConfigurationError`, then assembles mode, db, bookmarks, tx_metadata and
tx_timeout in source order. `ver` is the handler's `PROTOCOL_VERSION`
shown in the error message (4.1-4.3 inherit this method). -/
def Bolt4x0.runExtra (ver : String) (a : TxArgs) :
    Except Raised (List (String × ExtraVal)) := do
  if a.imp_user ≠ none then
    throw (.driver .configurationError
      ("Impersonation is not supported in Bolt Protocol " ++ ver
        ++ ". Trying to impersonate " ++ (a.imp_user.getD "") ++ "."))
  let e := modeField a.mode ++ dbField a.db
  let e := e ++ (← bookmarksField "Bookmarks must be provided within an iterable" a.bookmarks)
  let e := e ++ (← metadataField "Metadata must be coercible to a dict" a.metadata)
  let e := e ++ (← timeoutField "Timeout must be specified as a number of seconds"
    "Timeout must be a positive number or 0." a.timeout)
  return e

/-- `extra`-map construction of `AsyncBolt4x4.run` / `AsyncBolt4x4.begin`:
same as 4.0 but with `imp_user` included when truthy and no version
gate. -/
def Bolt4x4.runExtra (a : TxArgs) : Except Raised (List (String × ExtraVal)) := do
  let e := modeField a.mode ++ dbField a.db ++ impUserField a.imp_user
  let e := e ++ (← bookmarksField "Bookmarks must be provided within an iterable" a.bookmarks)
  let e := e ++ (← metadataField "Metadata must be coercible to a dict" a.metadata)
  let e := e ++ (← timeoutField "Timeout must be specified as a number of seconds"
    "Timeout must be a positive number or 0." a.timeout)
  return e

/-- `extra`-map construction of `Bolt5x0.run` / `Bolt5x0.begin`: identical
to 4.4 up to the error-message texts. -/
def Bolt5x0.runExtra (a : TxArgs) : Except Raised (List (String × ExtraVal)) := do
  let e := modeField a.mode ++ dbField a.db ++ impUserField a.imp_user
  let e := e ++ (← bookmarksField "Bookmarks must be provided as iterable" a.bookmarks)
  let e := e ++ (← metadataField "Metadata must be coercible to a dict" a.metadata)
  let e := e ++ (← timeoutField "Timeout must be a number (in seconds)"
    "Timeout must be a number <= 0" a.timeout)
  return e

inductive BoltVersion
  | v4_0
  | v4_1
  | v4_2
  | v4_3
  | v4_4
  | v5_0
  deriving DecidableEq, Repr, Fintype

def BoltVersion.verRepr : BoltVersion → String
  | .v4_0 => "(4, 0)"
  | .v4_1 => "(4, 1)"
  | .v4_2 => "(4, 2)"
  | .v4_3 => "(4, 3)"
  | .v4_4 => "(4, 4)"
  | .v5_0 => "(5, 0)"

/-- Whether per-message impersonation exists on this protocol version. -/
def BoltVersion.supportsImpUser : BoltVersion → Bool
  | .v4_4 | .v5_0 => true
  | _ => false

/-- `run`'s extra construction per handler class: 4.1-4.3 inherit
`AsyncBolt4x0.run`; 4.4 and 5.0 have their own overrides. -/
def runExtraOf : BoltVersion → TxArgs → Except Raised (List (String × ExtraVal))
  | .v4_0 => Bolt4x0.runExtra "(4, 0)"
  | .v4_1 => Bolt4x0.runExtra "(4, 1)"
  | .v4_2 => Bolt4x0.runExtra "(4, 2)"
  | .v4_3 => Bolt4x0.runExtra "(4, 3)"
  | .v4_4 => Bolt4x4.runExtra
  | .v5_0 => Bolt5x0.runExtra

/-- `begin` builds its extra map with the same statements as `run` in
every handler class. -/
def beginExtraOf : BoltVersion → TxArgs → Except Raised (List (String × ExtraVal)) :=
  runExtraOf

/-- A message placed in the outbox by `_append`: its signature byte and
the extra map it carries (the claims do not inspect the other fields). -/
structure SentMessage where
  sig : Nat
  extra : List (String × ExtraVal)
  deriving DecidableEq, Repr

/-- The connection-visible effects of a request-builder method: messages
appended to the outbox and responses enqueued. -/
structure IOState where
  outbox : List SentMessage := []
  responses : List Resp := []
  deriving DecidableEq, Repr

/-- `run(...)`: every validation error is raised before `self._append`
runs, so the state is returned unchanged alongside the error; on success
exactly one RUN message (signature 0x10) is appended and one "run"
response enqueued. -/
def runOnConn (v : BoltVersion) (a : TxArgs) (st : IOState) : IOState × Option Raised :=
  match runExtraOf v a with
  | .error e => (st, some e)
  | .ok extra =>
    ({ outbox := st.outbox ++ [{ sig := 0x10, extra := extra }]
     , responses := st.responses ++ [{ message := "run" }] }, none)

def beginOnConn (v : BoltVersion) (a : TxArgs) (st : IOState) : IOState × Option Raised :=
  match beginExtraOf v a with
  | .error e => (st, some e)
  | .ok extra =>
    ({ outbox := st.outbox ++ [{ sig := 0x11, extra := extra }]
     , responses := st.responses ++ [{ message := "begin" }] }, none)

/-- The `db_context` of `route(database, imp_user, bookmarks)`: 4.0-4.3
raise `ConfigurationError` for a non-None `imp_user` before touching the
connection; 4.4/5.0 include `db` and `imp_user` whenever they are not
None (`is not None`, not truthiness). -/
def routeDbContext (v : BoltVersion) (database imp_user : Option String) :
    Except Raised (List (String × ExtraVal)) :=
  match v with
  | .v4_0 | .v4_1 | .v4_2 | .v4_3 =>
    if imp_user ≠ none then
      .error (.driver .configurationError
        ("Impersonation is not supported in Bolt Protocol " ++ v.verRepr
          ++ ". Trying to impersonate " ++ (imp_user.getD "") ++ "."))
    else .ok []
  | .v4_4 | .v5_0 =>
    .ok ((match database with | some d => [("db", ExtraVal.str d)] | none => [])
      ++ (match imp_user with | some u => [("imp_user", ExtraVal.str u)] | none => []))

/-- `route(...)` on the connection. On 4.0-4.2 the accepted call routes
via RUN+PULL of the routing procedure, on 4.3+ via a ROUTE message
(signature 0x66) carrying the db context; the query/extra details of the
procedure call are elided — no claim depends on them. A rejected call
leaves the state unchanged. -/
def routeOnConn (v : BoltVersion) (database imp_user : Option String) (st : IOState) :
    IOState × Option Raised :=
  match routeDbContext v database imp_user with
  | .error e => (st, some e)
  | .ok ctx =>
    match v with
    | .v4_0 | .v4_1 | .v4_2 =>
      ({ outbox := st.outbox ++ [{ sig := 0x10, extra := [] }, { sig := 0x3F, extra := [] }]
       , responses := st.responses ++ [{ message := "run" }, { message := "pull" }] }, none)
    | _ =>
      ({ outbox := st.outbox ++ [{ sig := 0x66, extra := ctx }]
       , responses := st.responses ++ [{ message := "route" }] }, none)

/-! ## Result-shape predicates used by the C4 and C5 theorems -/

def isTypeError {α : Type} : Except Raised α → Bool
  | .error (.typeError _) => true
  | _ => false

def isValueError {α : Type} : Except Raised α → Bool
  | .error (.valueError _) => true
  | _ => false

def isOverflowError {α : Type} : Except Raised α → Bool
  | .error (.overflowError _) => true
  | _ => false

def raisedIsConfigError : Option Raised → Bool
  | some (.driver .configurationError _) => true
  | _ => false

def timeoutValueMsgOf : BoltVersion → String
  | .v5_0 => "Timeout must be a number <= 0"
  | _ => "Timeout must be a positive number or 0."

/-! ## Sanity checks -/

example : (Neo4jError.hydrate none (some "Neo.ClientError.Security.AuthorizationExpired")).cls = .transientError := by decide
example : (Neo4jError.hydrate none (some "Neo.ClientError.Cluster.NotALeader")).cls = .notALeader := by decide
example : (Neo4jError.hydrate none none).cls = .databaseError := by decide
example : (Neo4jError.hydrate none (some "Garbage")).classification = "DatabaseError" := by decide
example : Neo4jError.is_retriable (Neo4jError.hydrate none (some "Neo.TransientError.General.DatabaseUnavailable")) = true := by decide
example : Neo4jError.is_retriable (Neo4jError.hydrate none (some "Neo.TransientError.Transaction.Terminated")) = false := by decide
example : Neo4jError.is_retriable (Neo4jError.hydrate none (some "Neo.ClientError.Statement.SyntaxError")) = false := by decide

/- The double nearest 2.675 is 6023564501608038 · 2^-51; its exact product
with 1000 is 2674.999999999999822..., within half an ulp of 2675, so the
binary64 multiplication yields exactly 2675.0 and `int` gives 2675. -/
example : pyTimeoutMs 6023564501608038 2251799813685248 = some 2675 := by decide
example : pyTimeoutMs 3011782250804019 1125899906842624 = some 2675 := by decide
example : pyTimeoutMs (-1) 2048 = some 0 := by decide
example : pyTimeoutMs 0 1 = some 0 := by decide
example : pyTimeoutMs 2 1 = some 2000 := by decide

/-! ## Lemmas about the correlation engine -/

theorem processSummary_queue (c : Conn) (ev0 : List Event) (s : Option (Nat × ReplyMeta)) :
    ((processSummary c ev0 s).popped = [] ∧ (processSummary c ev0 s).conn.responses = c.responses)
    ∨ (∃ r rest, c.responses = r :: rest
        ∧ (processSummary c ev0 s).popped = [markComplete r]
        ∧ (processSummary c ev0 s).conn.responses = rest) := by
  cases s with
  | none => exact Or.inl ⟨rfl, rfl⟩
  | some p =>
    obtain ⟨sig, md⟩ := p
    rcases hr : c.responses with _ | ⟨r, rest⟩
    · exact Or.inl (by constructor <;> simp [processSummary, hr])
    · refine Or.inr ⟨r, rest, rfl, ?_, ?_⟩ <;>
        · simp only [processSummary, hr, markComplete]
          repeat' split
          all_goals rfl

theorem processMessage_queue (c : Conn) (d : List Rec) (s : Option (Nat × ReplyMeta)) :
    ((processMessage c d s).popped = [] ∧ (processMessage c d s).conn.responses = c.responses)
    ∨ (∃ r rest, c.responses = r :: rest
        ∧ (processMessage c d s).popped = [markComplete r]
        ∧ (processMessage c d s).conn.responses = rest) := by
  cases d with
  | nil => simpa [processMessage] using processSummary_queue c [] s
  | cons d0 ds =>
    rcases hr : c.responses with _ | ⟨r, rest⟩
    · exact Or.inl (by constructor <;> simp [processMessage, hr])
    · have h := processSummary_queue c [.onRecords r (d0 :: ds)] s
      simpa [processMessage, hr] using h

theorem runOps_popped_prefix (c : Conn) (ops : List Op) :
    (runOps c ops).2 <+: (c.responses ++ enqueuedOf ops).map markComplete := by
  induction ops generalizing c with
  | nil => simp [runOps]
  | cons op ops ih =>
    cases op with
    | push r =>
      have h := ih { c with responses := c.responses ++ [r] }
      simp only [runOps]
      simpa [enqueuedOf, List.append_assoc] using h
    | deliver d s =>
      rcases processMessage_queue c d s with ⟨hp, hq⟩ | ⟨r, rest, hcr, hp, hq⟩ <;>
        cases hraised : (processMessage c d s).raised
      · have h := ih (processMessage c d s).conn
        rw [hq] at h
        simpa [runOps, hraised, hp, enqueuedOf] using h
      · simp [runOps, hraised, hp, enqueuedOf]
      · have h := ih (processMessage c d s).conn
        rw [hq] at h
        obtain ⟨t, ht⟩ := h
        simp only [runOps, hraised, hp, enqueuedOf, hcr]
        refine ⟨t, ?_⟩
        simp [markComplete, ← ht]
      · simp only [runOps, hraised, hp, enqueuedOf, hcr]
        exact ⟨_, rfl⟩

theorem subclass_nal_forodb (cl : ErrClass)
    (h : cl.subclassOf .notALeader = true ∨ cl.subclassOf .forbiddenOnReadOnlyDatabase = true) :
    (cl.subclassOf .serviceUnavailable || cl.subclassOf .databaseUnavailable) = false := by
  revert h
  revert cl
  decide

theorem raised_nal_not_su (e : Raised)
    (h : e.isinstance .notALeader = true ∨ e.isinstance .forbiddenOnReadOnlyDatabase = true) :
    (e.isinstance .serviceUnavailable || e.isinstance .databaseUnavailable) = false := by
  cases e <;> first
    | exact subclass_nal_forodb _ h
    | (rcases h with h | h <;> simp [Raised.isinstance] at h)

/-! ## Claim C1 -/

/-- C1: for every FAILURE summary processed by `_process_message` (the
bolt-4.x and bolt-5.0 bodies are identical): the server state is set to
`FAILED` before the head response's `on_failure` handling is invoked; the
error that handling raises propagates to the caller; if the error is an
instance of `ServiceUnavailable` or `DatabaseUnavailable` the handler
calls `pool.deactivate(address)`; if an instance of `NotALeader` or
`ForbiddenOnReadOnlyDatabase`, `pool.on_write_failure(address)`; if an
instance of `Neo4jError` not matching the earlier clauses and whose
`invalidates_all_connections()` holds, `pool.mark_all_stale()` — in
particular, a plain response whose FAILURE metadata carries code
`Neo.ClientError.Security.AuthorizationExpired` marks all connections
stale. -/
theorem claim_C1_failure_dispatch (c : Conn) (r : Resp) (rest : List Resp) (md : ReplyMeta)
    (hcr : c.responses = r :: rest) (hpool : c.hasPool = true) :
    (processMessage c [] (some (FAILURE_SIG, md))).conn.state = .failed
    ∧ (processMessage c [] (some (FAILURE_SIG, md))).events.take 2
        = [.setState .failed, .onFailureCall (markComplete r) md]
    ∧ (processMessage c [] (some (FAILURE_SIG, md))).raised = some (r.onFailureRaised md)
    ∧ (((r.onFailureRaised md).isinstance .serviceUnavailable = true
         ∨ (r.onFailureRaised md).isinstance .databaseUnavailable = true) →
        Event.poolDeactivate ∈ (processMessage c [] (some (FAILURE_SIG, md))).events)
    ∧ (((r.onFailureRaised md).isinstance .notALeader = true
         ∨ (r.onFailureRaised md).isinstance .forbiddenOnReadOnlyDatabase = true) →
        Event.poolOnWriteFailure ∈ (processMessage c [] (some (FAILURE_SIG, md))).events)
    ∧ (((r.onFailureRaised md).isinstance .neo4jError = true
         ∧ (r.onFailureRaised md).invalidatesAll = true
         ∧ (r.onFailureRaised md).isinstance .serviceUnavailable = false
         ∧ (r.onFailureRaised md).isinstance .databaseUnavailable = false
         ∧ (r.onFailureRaised md).isinstance .notALeader = false
         ∧ (r.onFailureRaised md).isinstance .forbiddenOnReadOnlyDatabase = false) →
        Event.poolMarkAllStale ∈ (processMessage c [] (some (FAILURE_SIG, md))).events)
    ∧ (r.failBehavior = .plainResponse →
        md.code = some "Neo.ClientError.Security.AuthorizationExpired" →
        Event.poolMarkAllStale ∈ (processMessage c [] (some (FAILURE_SIG, md))).events) := by
  have hstep : processMessage c [] (some (FAILURE_SIG, md)) =
      { conn := { c with responses := rest, state := .failed }
      , events := [.setState .failed, .onFailureCall (markComplete r) md]
          ++ poolDispatch c.hasPool (r.onFailureRaised md)
      , popped := [markComplete r]
      , raised := some (r.onFailureRaised md) } := by
    simp [processMessage, processSummary, hcr, markComplete,
      FAILURE_SIG, SUCCESS_SIG, IGNORED_SIG]
  rw [hstep]
  refine ⟨rfl, rfl, rfl, ?_, ?_, ?_, ?_⟩
  · intro h
    rcases h with h | h <;> simp [poolDispatch, h, hpool]
  · intro h
    have hsu := raised_nal_not_su _ h
    rcases h with h | h <;>
      simp_all [poolDispatch, hpool]
  · rintro ⟨hneo, hinv, h1, h2, h3, h4⟩
    simp [poolDispatch, h1, h2, h3, h4, hneo, hinv, hpool]
  · intro hplain hcode
    have he : r.onFailureRaised md
        = .neo (Neo4jError.hydrate md.message
            (some "Neo.ClientError.Security.AuthorizationExpired")) := by
      simp [Resp.onFailureRaised, hplain, hcode]
    rw [he]
    have hcls : (Neo4jError.hydrate md.message
        (some "Neo.ClientError.Security.AuthorizationExpired")).cls = .transientError := rfl
    have hinv : (Neo4jError.hydrate md.message
        (some "Neo.ClientError.Security.AuthorizationExpired")).code
          = "Neo.ClientError.Security.AuthorizationExpired" := rfl
    simp [poolDispatch, Raised.isinstance, Raised.invalidatesAll,
      Neo4jError.invalidates_all_connections, hcls, hinv, hpool]
    decide

theorem claim_C1_witness :
    Event.poolOnWriteFailure ∈
      (processMessage
        { responses := [{ message := "run" }], state := .streaming, hasPool := true }
        [] (some (FAILURE_SIG, { code := some "Neo.ClientError.Cluster.NotALeader" }))).events :=
  (claim_C1_failure_dispatch
    { responses := [{ message := "run" }], state := .streaming, hasPool := true }
    { message := "run" } [] { code := some "Neo.ClientError.Cluster.NotALeader" }
    rfl rfl).2.2.2.2.1 (Or.inl (by decide))

/-! ## Claim C2 -/

/-- C2: a RECORD reply (`details` nonempty, no summary signature) invokes
the head response's `on_records` with the record list and the head is not
popped (the connection is unchanged); each of the summary signatures
SUCCESS, IGNORED and FAILURE pops the head response and sets its
`complete` flag before the callback fires (the callback event carries the
completed response); hence over any run starting from an empty queue the
popped responses are a prefix of the enqueued responses, in order. -/
theorem claim_C2_record_and_fifo :
    (∀ (c : Conn) (r : Resp) (rest : List Resp) (d0 : Rec) (ds : List Rec),
      c.responses = r :: rest →
      (processMessage c (d0 :: ds) none).conn = c
      ∧ (processMessage c (d0 :: ds) none).events = [.onRecords r (d0 :: ds)]
      ∧ (processMessage c (d0 :: ds) none).popped = [])
    ∧ (∀ (c : Conn) (r : Resp) (rest : List Resp) (sig : Nat) (md : ReplyMeta),
      c.responses = r :: rest →
      (sig = SUCCESS_SIG ∨ sig = IGNORED_SIG ∨ sig = FAILURE_SIG) →
      (processMessage c [] (some (sig, md))).conn.responses = rest
      ∧ (processMessage c [] (some (sig, md))).popped = [markComplete r]
      ∧ (processMessage c [] (some (sig, md))).events =
          (if sig = SUCCESS_SIG then [.onSuccess (markComplete r) md]
           else if sig = IGNORED_SIG then [.onIgnored (markComplete r) md]
           else [.setState .failed, .onFailureCall (markComplete r) md]
                ++ poolDispatch c.hasPool (r.onFailureRaised md)))
    ∧ (∀ (c : Conn) (ops : List Op), c.responses = [] →
      (runOps c ops).2 <+: (enqueuedOf ops).map markComplete) := by
  refine ⟨?_, ?_, ?_⟩
  · intro c r rest d0 ds hcr
    refine ⟨?_, ?_, ?_⟩ <;> simp [processMessage, processSummary, hcr]
  · intro c r rest sig md hcr hsig
    rcases hsig with h | h | h <;> subst h <;>
      refine ⟨?_, ?_, ?_⟩ <;>
        simp [processMessage, processSummary, hcr, markComplete,
          SUCCESS_SIG, IGNORED_SIG, FAILURE_SIG]
  · intro c ops hc
    have h := runOps_popped_prefix c ops
    rwa [hc, List.nil_append] at h

theorem claim_C2_witness :
    (processMessage { responses := [{ message := "pull" }], state := .streaming, hasPool := true }
        [["v"]] none).popped = []
    ∧ (processMessage { responses := [{ message := "run" }], state := .ready, hasPool := true }
        [] (some (SUCCESS_SIG, {}))).popped = [markComplete { message := "run" }]
    ∧ (runOps { responses := [], state := .connected, hasPool := true }
        [.push { message := "hello" }]).2 <+: [markComplete { message := "hello" }] :=
  ⟨(claim_C2_record_and_fifo.1
      { responses := [{ message := "pull" }], state := .streaming, hasPool := true }
      { message := "pull" } [] ["v"] [] rfl).2.2,
   (claim_C2_record_and_fifo.2.1
      { responses := [{ message := "run" }], state := .ready, hasPool := true }
      { message := "run" } [] SUCCESS_SIG {} rfl (Or.inl rfl)).2.1,
   claim_C2_record_and_fifo.2.2
      { responses := [], state := .connected, hasPool := true }
      [.push { message := "hello" }] rfl⟩

/-! ## Claim C3 -/

/-- C3 counterexample: the claim states `is_reset` is true iff the queue
is empty with state READY, or the last enqueued response's request name is
"reset". On a connection whose queue holds a single "run" response while
the state manager reads READY, the code returns true but the claimed
right-hand side is false. -/
theorem claim_C3_counterexample :
    ¬ (Bolt.is_reset { responses := [{ message := "run" }], state := .ready, hasPool := true } = true
        ↔ (({ responses := [{ message := "run" }], state := .ready, hasPool := true } : Conn).responses = []
             ∧ ({ responses := [{ message := "run" }], state := .ready, hasPool := true } : Conn).state = .ready)
          ∨ ({ responses := [{ message := "run" }], state := .ready, hasPool := true } : Conn).responses.getLast?.map
              Resp.message = some "reset") := by
  decide

/-- C3 amended: `is_reset` is true iff the last enqueued response's
request name is "reset", or the server state is READY (regardless of
whether the response queue is empty). -/
theorem claim_C3_is_reset_amended (c : Conn) :
    Bolt.is_reset c = true ↔
      (c.responses.getLast?.map Resp.message = some "reset" ∨ c.state = .ready) := by
  unfold Bolt.is_reset
  by_cases h : c.responses.getLast?.map Resp.message = some "reset"
  · simp [h]
  · simp [h]

/-! ## Helper lemmas about `hydrate` -/

theorem hydrate_code_eq (m c : Option String) :
    (Neo4jError.hydrate m c).code = pyOr c "Neo.DatabaseError.General.UnknownError" := rfl

theorem lookup_mem_values {l : List (String × ErrClass)} {k : String} {v : ErrClass}
    (h : l.lookup k = some v) : v ∈ l.map Prod.snd := by
  induction l with
  | nil => simp [List.lookup] at h
  | cons p t ih =>
    obtain ⟨k1, v1⟩ := p
    simp only [List.lookup] at h
    cases hk : (k == k1) with
    | true => rw [hk] at h; injection h with h; subst h; simp
    | false => rw [hk] at h; simp only [List.map_cons, List.mem_cons]; exact Or.inr (ih h)

theorem extract_error_class_neo4j (classification code : String) :
    (Neo4jError.extract_error_class classification code).subclassOf .neo4jError = true := by
  unfold Neo4jError.extract_error_class
  by_cases h1 : classification = CLASSIFICATION_CLIENT
  · rw [if_pos h1]
    cases hc : client_errors code with
    | none => rfl
    | some c =>
      have hmem := lookup_mem_values (l := client_errors_list) hc
      clear hc
      revert c
      decide
  · rw [if_neg h1]
    by_cases h2 : classification = CLASSIFICATION_TRANSIENT
    · rw [if_pos h2]
      cases hc : transient_errors code with
      | none => rfl
      | some c =>
        have hmem := lookup_mem_values (l := transient_errors_list) hc
        clear hc
        revert c
        decide
    · rw [if_neg h2]
      by_cases h3 : classification = CLASSIFICATION_DATABASE
      · rw [if_pos h3]; rfl
      · rw [if_neg h3]; rfl

theorem hydrate_cls_neo4j (m c : Option String) :
    (Neo4jError.hydrate m c).cls.subclassOf .neo4jError = true :=
  extract_error_class_neo4j _ _

theorem is_retriable_dispatch_eq (c : ErrClass) (code : String)
    (h : c.subclassOf .neo4jError = true) :
    is_retriable_dispatch c code =
      (c.subclassOf .transientError &&
        (!(code == "Neo.TransientError.Transaction.Terminated") &&
         !(code == "Neo.TransientError.Transaction.LockClientStopped"))) := by
  cases c <;> first
    | rfl
    | exact absurd h (by decide)

theorem clientError_not_transient (c : ErrClass)
    (h : c.subclassOf .clientError = true ∨ c = .databaseError) :
    c.subclassOf .transientError = false := by
  revert h
  revert c
  decide

/-! ## Claims C6 and C7 -/

/-- C6: for every FAILURE metadata whose code equals
`Neo.ClientError.Security.AuthorizationExpired`, `Neo4jError.hydrate`
produces an error whose classification is `TransientError` (re-labeled
from `ClientError`), whose class is `TransientError`, and for which
`invalidates_all_connections()` returns true; for every other code
`invalidates_all_connections()` returns false. -/
theorem claim_C6_authorization_expired (msg : Option String) (code : String)
    (h : code ≠ "Neo.ClientError.Security.AuthorizationExpired") :
    (Neo4jError.hydrate msg (some "Neo.ClientError.Security.AuthorizationExpired")).classification
        = CLASSIFICATION_TRANSIENT
    ∧ (Neo4jError.hydrate msg (some "Neo.ClientError.Security.AuthorizationExpired")).cls
        = ErrClass.transientError
    ∧ Neo4jError.invalidates_all_connections
        (Neo4jError.hydrate msg (some "Neo.ClientError.Security.AuthorizationExpired")) = true
    ∧ Neo4jError.invalidates_all_connections (Neo4jError.hydrate msg (some code)) = false := by
  refine ⟨rfl, rfl, rfl, ?_⟩
  have hcode := hydrate_code_eq msg (some code)
  simp only [Neo4jError.invalidates_all_connections, hcode, pyOr]
  by_cases hc : code = ""
  · simp [hc]
  · simp [hc, h]

theorem claim_C6_witness :
    Neo4jError.invalidates_all_connections
      (Neo4jError.hydrate none (some "Neo.TransientError.General.DatabaseUnavailable")) = false :=
  (claim_C6_authorization_expired none "Neo.TransientError.General.DatabaseUnavailable"
    (by decide)).2.2.2

/-- C7: for every hydrated server error, `is_retriable()` returns true iff
the error is an instance of `TransientError` (including the subclasses
`DatabaseUnavailable`, `NotALeader`, `ForbiddenOnReadOnlyDatabase` and the
reclassified `AuthorizationExpired` errors) whose code is neither
`Neo.TransientError.Transaction.Terminated` nor
`Neo.TransientError.Transaction.LockClientStopped`; for every instance of
`ClientError` (and its subclasses) or `DatabaseError` it returns false. -/
theorem claim_C7_is_retriable (msg code : Option String) :
    (Neo4jError.is_retriable (Neo4jError.hydrate msg code) = true ↔
      ((Neo4jError.hydrate msg code).cls.subclassOf .transientError = true ∧
       (Neo4jError.hydrate msg code).code ≠ "Neo.TransientError.Transaction.Terminated" ∧
       (Neo4jError.hydrate msg code).code ≠ "Neo.TransientError.Transaction.LockClientStopped"))
    ∧ (((Neo4jError.hydrate msg code).cls.subclassOf .clientError = true ∨
        (Neo4jError.hydrate msg code).cls = .databaseError) →
       Neo4jError.is_retriable (Neo4jError.hydrate msg code) = false) := by
  have hda := is_retriable_dispatch_eq (Neo4jError.hydrate msg code).cls
    (Neo4jError.hydrate msg code).code (hydrate_cls_neo4j msg code)
  constructor
  · rw [Neo4jError.is_retriable, hda]
    simp [Bool.and_eq_true, Bool.not_eq_true', beq_eq_false_iff_ne]
  · intro hcd
    rw [Neo4jError.is_retriable, hda, clientError_not_transient _ hcd]
    simp

theorem claim_C7_witness :
    Neo4jError.is_retriable
      (Neo4jError.hydrate none (some "Neo.ClientError.Statement.SyntaxError")) = false :=
  (claim_C7_is_retriable none (some "Neo.ClientError.Statement.SyntaxError")).2 (Or.inl (by decide))

/-! ## Claims C8, C9, C10 -/

/-- C8: `TransactionNestingError.__init__` passes `TransactionError` (not
`TransactionNestingError`) to `super()`; since `TransactionNestingError`
subclasses `DriverError` and not `TransactionError`, constructing
`TransactionNestingError(transaction, ...)` raises a `TypeError` for every
argument list instead of returning an initialized instance. -/
theorem claim_C8_transaction_nesting_error (transaction : String) (args : List String) :
    ErrClass.transactionNestingError.parent = some .driverError
    ∧ ErrClass.transactionNestingError.subclassOf .transactionError = false
    ∧ TransactionNestingError.init transaction args
        = .error (.typeError "super(type, obj): obj must be an instance or subtype of type") :=
  ⟨rfl, rfl, rfl⟩

/-- C9: for every FAILURE received in reply to HELLO, handled by
`InitResponse.on_failure`: if the metadata code equals
`Neo.ClientError.Security.Unauthorized` the hydrated typed `Neo4jError`
(an `AuthError`) is raised; for every other code a `ServiceUnavailable` is
raised instead of the typed server error; no implicit RESET is attempted
and the user-supplied `on_failure` / `on_summary` handlers are never
invoked. -/
theorem claim_C9_init_response_on_failure (md : ReplyMeta) :
    (InitResponse.on_failure md).resetAttempted = false
    ∧ (InitResponse.on_failure md).invoked = []
    ∧ (md.code = some "Neo.ClientError.Security.Unauthorized" →
        (InitResponse.on_failure md).raised = .neo (Neo4jError.hydrate md.message md.code)
        ∧ (Neo4jError.hydrate md.message md.code).cls = .authError)
    ∧ (md.code ≠ some "Neo.ClientError.Security.Unauthorized" →
        (InitResponse.on_failure md).raised
          = .driver .serviceUnavailable (md.message.getD "Connection initialisation failed")) := by
  refine ⟨?_, ?_, ?_, ?_⟩
  · unfold InitResponse.on_failure; split <;> rfl
  · unfold InitResponse.on_failure; split <;> rfl
  · intro h
    unfold InitResponse.on_failure
    rw [if_pos h, h]
    exact ⟨rfl, rfl⟩
  · intro h
    unfold InitResponse.on_failure
    rw [if_neg h]

theorem claim_C9_witness :
    (InitResponse.on_failure { code := some "Neo.ClientError.Security.Unauthorized" }).raised
        = .neo (Neo4jError.hydrate none (some "Neo.ClientError.Security.Unauthorized"))
    ∧ (InitResponse.on_failure { code := some "Neo.TransientError.General.DatabaseUnavailable" }).raised
        = .driver .serviceUnavailable "Connection initialisation failed" :=
  ⟨((claim_C9_init_response_on_failure _).2.2.1 rfl).1,
   (claim_C9_init_response_on_failure _).2.2.2 (by decide)⟩

/-- C10: through `ConnectionErrorHandler.__getattr__`, a non-callable
attribute is returned unchanged; a callable attribute is wrapped so that
calling it invokes the underlying connection method, re-raises
`Neo4jError`, `ServiceUnavailable` or `SessionExpired` after invoking
`on_error` (other errors propagate without `on_error`), and always returns
`None`, discarding the underlying method's return value. -/
theorem claim_C10_connection_error_handler {V A R : Type}
    (v : V) (f : A → Except Raised R) (a : A) :
    ConnectionErrorHandler.getattr (A := A) (R := R) (.nonCallable v) = .plain v
    ∧ ConnectionErrorHandler.getattr (V := V) (.callable f) = .wrapped (wrappedCall f)
    ∧ (∀ r, f a = .ok r → wrappedCall f a
        = { onErrorCalled := false, result := .ok none })
    ∧ (∀ e, f a = .error e → caughtByHandler e = true → wrappedCall f a
        = { onErrorCalled := true, result := .error e })
    ∧ (∀ e, f a = .error e → caughtByHandler e = false → wrappedCall f a
        = { onErrorCalled := false, result := .error e }) := by
  refine ⟨rfl, rfl, ?_, ?_, ?_⟩
  · intro r h; unfold wrappedCall; rw [h]
  · intro e h hc; unfold wrappedCall; rw [h]; simp [hc]
  · intro e h hc; unfold wrappedCall; rw [h]; simp [hc]

theorem claim_C10_witness :
    wrappedCall (fun _ : Unit => (.ok 42 : Except Raised Nat)) ()
      = { onErrorCalled := false, result := .ok none } :=
  (claim_C10_connection_error_handler () (fun _ : Unit => (.ok 42 : Except Raised Nat)) ()).2.2.1
    42 rfl

/-! ## Claims C4 and C5 -/

theorem runExtraOf_timeout_num (v : BoltVersion) (n : Int) (d : Nat) :
    runExtraOf v { timeout := some (.num n d) }
      = (match pyTimeoutMs n d with
         | none => .error (.overflowError "cannot convert float infinity to integer")
         | some t =>
           if t < 0 then .error (.valueError (timeoutValueMsgOf v))
           else .ok [("tx_timeout", .int t)]) := by
  cases hm : pyTimeoutMs n d with
  | none =>
    cases v <;>
      simp [runExtraOf, Bolt4x0.runExtra, Bolt4x4.runExtra, Bolt5x0.runExtra,
        timeoutField, timeoutValueMsgOf, modeField, dbField, impUserField,
        bookmarksField, metadataField, truthyStr, truthyBookmarks, truthyMetadata, hm] <;>
      rfl
  | some t =>
    by_cases h : t < 0 <;> cases v <;>
      simp [runExtraOf, Bolt4x0.runExtra, Bolt4x4.runExtra, Bolt5x0.runExtra,
        timeoutField, timeoutValueMsgOf, modeField, dbField, impUserField,
        bookmarksField, metadataField, truthyStr, truthyBookmarks, truthyMetadata, hm, h] <;>
      rfl

/-- C4 counterexample: the claim says the timeout is rejected iff the
input is non-numeric or negative, but `int(1000 * float(timeout))`
truncates toward zero: the negative input `-2^-11` seconds
(= -0.00048828125, an exactly representable double whose product
`-125/256` is also exactly representable, so no rounding is involved) is
accepted and encoded as `tx_timeout = 0`. -/
theorem claim_C4_counterexample :
    ((-1 : Int) < 0 ∧ (0 : Nat) < 2048)
    ∧ runExtraOf .v4_0 { timeout := some (.num (-1) 2048) }
        = .ok [("tx_timeout", .int 0)] :=
  ⟨by decide, by rfl⟩

/-- C4 amended: for every timeout argument passed to `run` or `begin` on
any protocol version: non-numeric input is rejected by a synchronously
raised `TypeError`; for a finite double input of exact value `n / d`, the
millisecond count is `int(1000 * float(timeout))`, where the
multiplication rounds its exact product to the nearest binary64 double
(ties to even) before `int(·)` truncates toward zero: the input is
rejected by a synchronous `ValueError` iff that count is negative (and
by an uncaught `OverflowError` when the product overflows to infinity);
a timeout of 0 is accepted, and every accepted timeout is encoded under
the `tx_timeout` key as that non-negative integer count of
milliseconds. -/
theorem claim_C4_tx_timeout_amended (v : BoltVersion) (n : Int) (d : Nat) :
    isTypeError (runExtraOf v { timeout := some .nonNumeric }) = true
    ∧ (∀ t, pyTimeoutMs n d = some t → t < 0 →
        isValueError (runExtraOf v { timeout := some (.num n d) }) = true)
    ∧ (∀ t, pyTimeoutMs n d = some t → 0 ≤ t →
        runExtraOf v { timeout := some (.num n d) }
          = .ok [("tx_timeout", .int t)])
    ∧ (pyTimeoutMs n d = none →
        isOverflowError (runExtraOf v { timeout := some (.num n d) }) = true)
    ∧ runExtraOf v { timeout := some (.num 0 1) } = .ok [("tx_timeout", .int 0)] := by
  refine ⟨?_, ?_, ?_, ?_, ?_⟩
  · cases v <;> rfl
  · intro t hm h
    rw [runExtraOf_timeout_num, hm]
    simp [h, isValueError]
  · intro t hm h
    rw [runExtraOf_timeout_num, hm]
    simp [not_lt.mpr h]
  · intro hm
    rw [runExtraOf_timeout_num, hm]
    rfl
  · cases v <;> rfl

theorem claim_C4_witness :
    runExtraOf .v4_0 { timeout := some (.num 2 1) } = .ok [("tx_timeout", .int 2000)]
    ∧ runExtraOf .v4_0 { timeout := some (.num 6023564501608038 2251799813685248) }
        = .ok [("tx_timeout", .int 2675)]
    ∧ isTypeError (runExtraOf .v4_0 { timeout := some .nonNumeric }) = true :=
  ⟨(claim_C4_tx_timeout_amended .v4_0 2 1).2.2.1 2000 (by decide) (by decide),
   (claim_C4_tx_timeout_amended .v4_0 6023564501608038 2251799813685248).2.2.1 2675
     (by decide) (by decide),
   (claim_C4_tx_timeout_amended .v4_0 2 1).1⟩

/-- C5 counterexample: the claim says that on versions 4.4 and later a
call with a non-None `imp_user` includes it in the request, but `run` and
`begin` test Python truthiness (`if imp_user:`), so the non-None empty
string is silently omitted from the extra map. -/
theorem claim_C5_counterexample :
    (some "" ≠ (none : Option String))
    ∧ BoltVersion.v4_4.supportsImpUser = true
    ∧ runExtraOf .v4_4 { imp_user := some "" } = .ok [] :=
  ⟨by decide, rfl, rfl⟩

/-- C5 amended: for every call to `run`, `begin` or `route` with a
non-None `imp_user` on a protocol handler of version strictly below 4.4,
a `ConfigurationError` is raised synchronously and the connection state is
unchanged — nothing is appended to the outbox and no response is enqueued
(hence zero bytes are written); on 4.4 and later, `route` includes every
non-None `imp_user` in the request's db context, while `run` and `begin`
include it exactly when it is also non-empty (Python truthiness). -/
theorem claim_C5_impersonation_amended (v : BoltVersion) (u : String) (a : TxArgs)
    (st : IOState) (himp : a.imp_user = some u) :
    (v.supportsImpUser = false →
      (runOnConn v a st).1 = st ∧ raisedIsConfigError (runOnConn v a st).2 = true
      ∧ (beginOnConn v a st).1 = st ∧ raisedIsConfigError (beginOnConn v a st).2 = true
      ∧ (routeOnConn v none (some u) st).1 = st
      ∧ raisedIsConfigError (routeOnConn v none (some u) st).2 = true)
    ∧ (v.supportsImpUser = true →
      routeDbContext v none (some u) = .ok [("imp_user", .str u)]
      ∧ runExtraOf v { imp_user := some u }
          = .ok (if u = "" then [] else [("imp_user", .str u)])
      ∧ beginExtraOf v { imp_user := some u }
          = .ok (if u = "" then [] else [("imp_user", .str u)])) := by
  constructor
  · intro hv
    cases v <;> first
      | exact absurd hv (by decide)
      | (refine ⟨?_, ?_, ?_, ?_, ?_, ?_⟩ <;>
          (simp [runOnConn, beginOnConn, routeOnConn, runExtraOf, beginExtraOf,
            Bolt4x0.runExtra, routeDbContext, raisedIsConfigError, himp] <;> rfl))
  · intro hv
    have hrun : ∀ w : BoltVersion, w = .v4_4 ∨ w = .v5_0 →
        runExtraOf w { imp_user := some u }
          = .ok (if u = "" then [] else [("imp_user", .str u)]) := by
      rintro w (rfl | rfl) <;> by_cases hu : u = "" <;>
        simp [runExtraOf, Bolt4x4.runExtra, Bolt5x0.runExtra, impUserField,
          modeField, dbField, bookmarksField, metadataField, timeoutField,
          truthyStr, truthyBookmarks, truthyMetadata, hu] <;>
        rfl
    cases v <;> first
      | exact absurd hv (by decide)
      | exact ⟨rfl, hrun _ (by decide), hrun _ (by decide)⟩

theorem claim_C5_witness :
    (runOnConn .v4_3 { imp_user := some "alice" } {}).1 = ({} : IOState)
    ∧ raisedIsConfigError (runOnConn .v4_3 { imp_user := some "alice" } {}).2 = true
    ∧ runExtraOf .v4_4 { imp_user := some "alice" } = .ok [("imp_user", .str "alice")] :=
  ⟨((claim_C5_impersonation_amended .v4_3 "alice" { imp_user := some "alice" } {} rfl).1 rfl).1,
   ((claim_C5_impersonation_amended .v4_3 "alice" { imp_user := some "alice" } {} rfl).1 rfl).2.1,
   ((claim_C5_impersonation_amended .v4_4 "alice" { imp_user := some "alice" } {} rfl).2 rfl).2.1⟩
